import Mathlib

/-!
# Verification of the Topographica configuration scripts

Shallow embedding of the two artifacts of this repository:

* `src/models/gcal_od.ty` — a straight-line Python script that registers
  sheets in `topo.sim`, issues `topo.sim.connect` calls and a final
  `topo.sim.grid_layout`, all as a function of the global parameters
  declared with `p.add`.  We embed the script's observable configuration
  trace as a Lean function `gcalTrace : Params → List Event`.

* `src/doc/Tutorials/som_retinotopy.ipynb` — a notebook whose code cells
  issue a fixed sequence of framework commands.  We embed that sequence
  as the concrete list `somCmds : List Cmd`.

Numeric parameter values are rationals (`ℚ`); the Python literals
`0.05`, `2.33`, `0.6`, `1.5` become `1/20`, `233/100`, `3/5`, `3/2`.
-/

set_option autoImplicit false

/-- The `dataset` parameter of gcal_od.ty: `ObjectSelector` over
`['Gaussian','Nature']`. -/
inductive Dataset where
  | Gaussian
  | Nature
  deriving DecidableEq, Repr

/-- The global parameters declared via `p.add` in gcal_od.ty
(lines 40–107 of src/models/gcal_od.ty). -/
structure Params where
  dataset : Dataset
  num_inputs : ℕ
  dims : List String
  area : ℚ
  gain_control : Bool
  retina_density : ℚ
  lgn_density : ℚ
  cortex_density : ℚ
  dim_fraction : ℚ
  max_disparity : ℚ
  aff_strength : ℚ
  exc_strength : ℚ
  inh_strength : ℚ
  aff_lr : ℚ
  exc_lr : ℚ
  inh_lr : ℚ
  deriving DecidableEq, Repr

/-- The default parameter values of the `p.add` block of gcal_od.ty. -/
def defaultParams : Params :=
  { dataset := .Gaussian
    num_inputs := 2
    dims := ["or", "od"]
    area := 1
    gain_control := true
    retina_density := 24
    lgn_density := 24
    cortex_density := 48
    dim_fraction := 7/10
    max_disparity := 4
    aff_strength := 1
    exc_strength := 17/10
    inh_strength := 14/10
    aff_lr := 1/10
    exc_lr := 0
    inh_lr := 3/10 }

/-- `center_polarities=['On','Off']` (gcal_od.ty line 123). -/
def center_polarities : List String := ["On", "Off"]

/-- `eyes`: `['']` by default, `['Left','Right']` when `'od' in p.dims or
'dy' in p.dims` (gcal_od.ty lines 124, 130–131). -/
def eyes (p : Params) : List String :=
  if "od" ∈ p.dims ∨ "dy" ∈ p.dims then ["Left", "Right"] else [""]

/-- `num_aff=len(center_polarities)*len(eyes)` (gcal_od.ty line 145). -/
def num_aff (p : Params) : ℕ :=
  center_polarities.length * (eyes p).length

/-- The kind of sheet registered in `topo.sim`: a `GeneratorSheet` with
its `period` and `phase`, an LGN sheet (`SettlingCFSheet_Opt` when gain
control is on, `CFSheet` otherwise), or the cortical `SettlingCFSheet`. -/
inductive SheetKind where
  | generator (period phase : ℚ)
  | lgnGC
  | lgnPlain
  | cortical
  deriving DecidableEq, Repr

/-- Which `topo.sim.connect` call site of gcal_od.ty issued a connection. -/
inductive ConnSite where
  | retinaAfferent
  | lateralGC
  | lgnAfferent
  | lateralExcitatory
  | lateralInhibitory
  deriving DecidableEq, Repr

/-- One observable statement of gcal_od.ty: a string-keyed sheet
registration `topo.sim[name]=...`, a `topo.sim.connect` call with its
source, destination, name, `delay` and `strength`, the
`topo.sim.grid_layout` call, a `topo.sim.run(n)` call (the script issues
none; the constructor exists so that absence is statable), an
assignment to a framework class or object attribute (`config` for
object-valued attributes such as `projection.CFProjection.cf_shape`,
`configVal`/`configVals`/`configFlag` for numeric and boolean ones,
`simName` for `topo.sim.name`, `analysisPlotgroups` for
`topo.command.default_analysis_plotgroups`), or a statement that
checks, rejects or clamps a parameter value (`paramCheck`; the script
contains none — the constructor exists so that absence is statable). -/
inductive Event where
  | sheet (name : String) (kind : SheetKind) (density : ℚ)
  | connect (site : ConnSite) (src dst name : String) (delay strength : ℚ)
  | gridLayout
  | run (n : ℕ)
  | config (name : String)
  | configVal (name : String) (value : ℚ)
  | configVals (name : String) (values : List ℚ)
  | configFlag (name : String) (value : Bool)
  | simName (value : String)
  | analysisPlotgroups (values : List String)
  | paramCheck (name : String)
  deriving DecidableEq, Repr

/-- `preference_maps` (gcal_od.ty lines 295–299). -/
def preference_maps : List (String × List String) :=
  [("od", ["Ocular Preference"]),
   ("or", ["Orientation Preference"]),
   ("dy", ["PhaseDisparity Preference"])]

/-- `pgs` (gcal_od.ty lines 300–301):
`[x for y in [m for n,m in preference_maps if n in p.dims] for x in y]`
followed by `['Position Preference','Activity']`. -/
def pgs (dims : List String) : List String :=
  ((preference_maps.filter (fun nm => dims.contains nm.1)).map
    Prod.snd).flatten ++ ["Position Preference", "Activity"]

/-- The statements of gcal_od.ty before the sheet loop: the projection
class defaults (lines 111–116) and `topo.sim.name = "gcal_" +
'_'.join(p.dims)` (line 128).  The `numpy.random.seed((500,500))` call
(line 138) is a numpy-library call, not a framework command, and the
local pattern variables (`centerg`, `on_weights`, ...) are plain Python
variables; neither is transcribed. -/
def gcalPreEvents (p : Params) : List Event :=
  [.config "CFProjection.cf_shape",
   .config "CFProjection.weights_generator",
   .config "CFProjection.response_fn",
   .config "CFProjection.learning_fn",
   .config "CFProjection.weights_output_fns",
   .config "SharedWeightCFProjection.response_fn",
   .simName ("gcal_" ++ String.intercalate "_" p.dims)]

/-- The analysis-default statements of gcal_od.ty after `grid_layout`
(lines 303–313): the plotgroups assignment,
`MeasureResponseCommand.durations=[1.0 if p.gain_control else 0.175]`,
`MeasureResponseCommand.pattern_response_fn.apply_output_fns=p.gain_control`,
and `FeatureMaps.selectivity_multiplier=2.0`. -/
def gcalAnalysisEvents (p : Params) : List Event :=
  [.analysisPlotgroups (pgs p.dims),
   .configVals "MeasureResponseCommand.durations"
     [if p.gain_control then 1 else 7/40],
   .configFlag "MeasureResponseCommand.pattern_response_fn.apply_output_fns"
     p.gain_control,
   .configVal "FeatureMaps.selectivity_multiplier" 2]

/-- The sheet registrations of gcal_od.ty in program order: for each eye a
`GeneratorSheet` retina (line 187, `period=1.0, phase=0.05`) followed by
one LGN sheet per center polarity (lines 191–204), then `V1`
(lines 208–211) and the `topo.sim['V1'].joint_norm_fn` assignment
(line 213). -/
def gcalSheetEvents (p : Params) : List Event :=
  ((eyes p).flatMap (fun e =>
    Event.sheet (e ++ "Retina") (.generator 1 (1/20)) p.retina_density ::
    center_polarities.map (fun l =>
      Event.sheet (e ++ "LGN" ++ l)
        (if p.gain_control then .lgnGC else .lgnPlain) p.lgn_density)))
  ++ [Event.sheet "V1" .cortical p.cortex_density,
      Event.config "V1.joint_norm_fn"]

/-- The `topo.sim.connect` calls of gcal_od.ty in program order
(lines 234–273): for each eye and polarity the Retina→LGN afferent
(`strength=2.33`), then — when `p.gain_control` — one `LateralGC`
connection from each eye's matching LGN sheet (`strength=0.6/len(eyes)`),
then the LGN→V1 afferent
(`strength=p.aff_strength*(1.0 if not p.gain_control else 1.5)`);
finally the two V1 lateral projections.  Every call passes
`delay=0.05`. -/
def gcalConnectEvents (p : Params) : List Event :=
  ((eyes p).flatMap (fun e =>
    center_polarities.flatMap (fun l =>
      Event.connect .retinaAfferent (e ++ "Retina") (e ++ "LGN" ++ l)
        "Afferent" (1/20) (233/100) ::
      ((if p.gain_control then
          (eyes p).map (fun e2 =>
            Event.connect .lateralGC (e2 ++ "LGN" ++ l) (e ++ "LGN" ++ l)
              (e2 ++ "LateralGC") (1/20) ((3/5) / ((eyes p).length : ℚ)))
        else []) ++
      [Event.connect .lgnAfferent (e ++ "LGN" ++ l) "V1"
        (e ++ "LGN" ++ l ++ "Afferent") (1/20)
        (p.aff_strength * (if p.gain_control then 3/2 else 1))]))))
  ++ [Event.connect .lateralExcitatory "V1" "V1" "LateralExcitatory"
        (1/20) p.exc_strength,
      Event.connect .lateralInhibitory "V1" "V1" "LateralInhibitory"
        (1/20) (-p.inh_strength)]

/-- The full observable trace of gcal_od.ty: the projection-default and
simulation-name assignments, all sheet registrations, all connect
calls, `topo.sim.grid_layout` (line 289), and the analysis-default
assignments (lines 303–313). -/
def gcalTrace (p : Params) : List Event :=
  gcalPreEvents p ++ gcalSheetEvents p ++ gcalConnectEvents p
  ++ [Event.gridLayout] ++ gcalAnalysisEvents p

/-- The names of the sheets registered by a trace, in order. -/
def sheetNamesOf (evs : List Event) : List String :=
  evs.filterMap (fun ev =>
    match ev with
    | .sheet n _ _ => some n
    | _ => none)

/-- The (source, destination, name) triples of the connections created by
a trace, in order. -/
def connTriplesOf (evs : List Event) : List (String × String × String) :=
  evs.filterMap (fun ev =>
    match ev with
    | .connect _ s d n _ _ => some (s, d, n)
    | _ => none)

/-- `true` iff every connect call in the trace names a source and a
destination sheet that some earlier event registered. -/
def connectsRegistered (seen : List String) : List Event → Bool
  | [] => true
  | .sheet n _ _ :: rest => connectsRegistered (n :: seen) rest
  | .connect _ s d _ _ _ :: rest =>
      seen.contains s && seen.contains d && connectsRegistered seen rest
  | _ :: rest => connectsRegistered seen rest

/-- `true` iff the event is a `topo.sim.run` call. -/
def isRunEvent : Event → Bool
  | .run _ => true
  | _ => false

/-!
## The SOM retinotopy notebook

`somCmds` transcribes, in cell order, the framework-level commands issued
by the code cells of src/doc/Tutorials/som_retinotopy.ipynb.  Pure-Python
statements (imports, `print`, local pattern construction) and display
accesses on already-returned data objects (`cog_data.CoG.Afferent`,
`data.CFs.Afferent.last`, ...) are not framework commands and are not
transcribed; IPython magics (`%opts`, `%timer`) likewise.
-/

/-- A framework-level command issued by a notebook code cell. -/
inductive Cmd where
  /-- `p.name = value` on the global parameter object. -/
  | paramSet (name : String)
  /-- An assignment of a numeric class-level default attribute,
  e.g. `sheet.GeneratorSheet.period = 1.0`. -/
  | classDefault (name : String) (value : ℚ)
  /-- An assignment of a boolean class-level attribute,
  e.g. `param.Dynamic.time_dependent=True`. -/
  | classFlag (name : String) (value : Bool)
  /-- `topo.sim[name] = ...` — string-keyed sheet registration. -/
  | sheetAssign (name : String)
  /-- `topo.sim.connect(src, dst, ..., delay=...)`. -/
  | connect (src dst : String) (delay : ℚ)
  /-- `topo.sim.run(n)`. -/
  | run (n : ℕ)
  /-- `measure_cog()`. -/
  | measureCog
  /-- `c.collect(...)` on the `Collector`. -/
  | collect
  /-- `c(times=[...])` / `c(data, times=...)` — run measurements. -/
  | collectorCall
  /-- `topo.sim.V1.Afferent.grid()`. -/
  | gridView
  /-- `topo.sim.V1.Afferent.projection_view()`. -/
  | projectionView
  /-- `input_pattern.anim(...)`. -/
  | anim
  /-- `topo.sim.time()`. -/
  | timeQuery
  /-- `topo.sim.V1.output_fns[0].kernel_radius`. -/
  | kernelRadiusQuery
  /-- A statement that checks, rejects or clamps a parameter value; the
  notebook contains none — the constructor exists so that absence is
  statable. -/
  | paramCheck (name : String)
  deriving DecidableEq, Repr

/-- The framework commands of the notebook's code cells, in order. -/
def somCmds : List Cmd :=
  [ -- model-parameter cell: pattern_response.progress_bar = False, p.add
    .classFlag "pattern_response.progress_bar" false,
    -- cell "In [2]": p.retina_density=10 ; p.cortex_density=10
    .paramSet "retina_density", .paramSet "cortex_density",
    -- model-definition cell: class defaults, then sheets, then connect
    .classFlag "Dynamic.time_dependent" true,
    .classFlag "TimeAwareRandomState.time_dependent" true,
    .classDefault "GeneratorSheet.period" 1,
    .classDefault "GeneratorSheet.phase" (1/20),
    .classDefault "GeneratorSheet.nominal_density" 10,
    .sheetAssign "Retina", .sheetAssign "V1",
    .connect "Retina" "V1" (1/20),
    -- topo.sim.V1.Afferent.grid()
    .gridView,
    -- cog_data = measure_cog()
    .measureCog,
    -- input_pattern.anim(30, offset=0.05)
    .anim,
    -- Collector setup: c.collect(measure_cog) and four c.collect(...)
    .collect, .collect, .collect, .collect, .collect,
    -- data = c(times=[1])
    .collectorCall,
    -- topo.sim.run(4) ; topo.sim.V1.Afferent.grid()
    .run 4, .gridView,
    -- topo.sim.V1.Afferent.projection_view()
    .projectionView,
    -- topo.sim.run(245)
    .run 245,
    -- times = [topo.sim.time()*i for i in range(1,21)]
    .timeQuery,
    -- data = c(data, times=times)  (to 5000 iterations)
    .collectorCall,
    -- data = c(data, times=times)  (to 10000 iterations)
    .collectorCall,
    -- topo.sim.V1.output_fns[0].kernel_radius
    .kernelRadiusQuery,
    -- data = c(data, times=times)  (to 30000 iterations)
    .collectorCall,
    -- topo.sim.V1.output_fns[0].kernel_radius
    .kernelRadiusQuery ]

/-- `true` iff the command is a `run(n)`. -/
def isRunCmd : Cmd → Bool
  | .run _ => true
  | _ => false

/-- `true` iff the command creates model structure: a string-keyed sheet
registration or a `connect` call. -/
def isStructuralCmd : Cmd → Bool
  | .sheetAssign _ => true
  | .connect _ _ _ => true
  | _ => false

/-- `true` iff no sheet registration or connect call occurs at or after
any `run(n)` in the list. -/
def runsAfterStructure : List Cmd → Bool
  | [] => true
  | c :: rest =>
      if isRunCmd c then rest.all (fun d => !isStructuralCmd d) &&
        runsAfterStructure rest
      else runsAfterStructure rest

/-- `true` iff the command is one of the framework commands the spec
names: `run`, `connect`, `measure_cog`, `grid_layout`, or a string-keyed
sheet registration. -/
def isSpecListedCmd : Cmd → Bool
  | .run _ => true
  | .connect _ _ _ => true
  | .measureCog => true
  | .sheetAssign _ => true
  | _ => false

/-- `true` iff the command is a parameter/default assignment or an
analysis, data-collection or plotting invocation (the notebook commands
the spec's short list omits). -/
def isAnalysisOrConfigCmd : Cmd → Bool
  | .paramSet _ => true
  | .classDefault _ _ => true
  | .classFlag _ _ => true
  | .collect => true
  | .collectorCall => true
  | .gridView => true
  | .projectionView => true
  | .anim => true
  | .timeQuery => true
  | .kernelRadiusQuery => true
  | _ => false

/-!
## Parameter declarations (`p.add`)

Each declaration records the parameter class used and the `bounds`
keyword handed to it, transcribed from the `p.add(...)` blocks.
-/

/-- The `param` class used in a `p.add` declaration. -/
inductive ParamKind where
  | objectSelector
  | integer
  | list
  | number
  | boolean
  deriving DecidableEq, Repr

/-- A numeric parameter class (`param.Number` or `param.Integer`). -/
def ParamKind.isNumeric : ParamKind → Bool
  | .integer => true
  | .number => true
  | _ => false

/-- One parameter declaration: its name, class, and declared `bounds`
keyword (`none` when the declaration passes no bounds; otherwise the
lower/upper pair, with `none` for Python `None`). -/
structure ParamDecl where
  name : String
  kind : ParamKind
  bounds : Option (Option ℚ × Option ℚ)
  deriving DecidableEq, Repr

/-- The `p.add` declarations of gcal_od.ty (lines 40–107). -/
def gcalParamDecls : List ParamDecl :=
  [ ⟨"dataset", .objectSelector, none⟩,
    ⟨"num_inputs", .integer, some (some 1, none)⟩,
    ⟨"dims", .list, none⟩,
    ⟨"area", .number, some (some 0, none)⟩,
    ⟨"gain_control", .boolean, none⟩,
    ⟨"retina_density", .number, some (some 0, none)⟩,
    ⟨"lgn_density", .number, some (some 0, none)⟩,
    ⟨"cortex_density", .number, some (some 0, none)⟩,
    ⟨"dim_fraction", .number, some (some 0, some 1)⟩,
    ⟨"max_disparity", .number, some (some 0, none)⟩,
    ⟨"aff_strength", .number, some (some 0, none)⟩,
    ⟨"exc_strength", .number, some (some 0, none)⟩,
    ⟨"inh_strength", .number, some (some 0, none)⟩,
    ⟨"aff_lr", .number, some (some 0, none)⟩,
    ⟨"exc_lr", .number, some (some 0, none)⟩,
    ⟨"inh_lr", .number, some (some 0, none)⟩ ]

/-- The `p.add` declarations of the notebook's model-definition cell. -/
def somParamDecls : List ParamDecl :=
  [ ⟨"retina_density", .number, some (some 0, none)⟩,
    ⟨"cortex_density", .number, some (some 0, none)⟩,
    ⟨"input_seed", .number, some (some 0, none)⟩,
    ⟨"weight_seed", .number, some (some 0, none)⟩,
    ⟨"radius_0", .number, some (some 0, none)⟩,
    ⟨"alpha_0", .number, some (some 0, none)⟩ ]

/-!
## The per-eye `scale` expressions

gcal_od.ty computes the brightness `scale` of each input pattern from a
uniform draw `u` on `[0,2]` (the same `numbergen.UniformRandom` seed for
both eyes: `input_seed+5+6*i` in the Gaussian branch, `input_seed+4+5*i`
in the Nature branch).
-/

/-- The Gaussian-branch `scale` (gcal_od.ty lines 161–163):
`(1-p.dim_fraction) + p.dim_fraction * ((2.0-u) if e=='Right' else u)` —
the ternary conditional here is parenthesised, so it selects only the
factor multiplied by `dim_fraction`. -/
def gaussianScale (df : ℚ) (e : String) (u : ℚ) : ℚ :=
  (1 - df) + df * (if e = "Right" then 2 - u else u)

/-- The Nature-branch `scale` (gcal_od.ty lines 178–180):
`(1-p.dim_fraction) + p.dim_fraction * (2.0-u) if e=='Right' else u` —
here the conditional is unparenthesised, so by Python precedence it binds
the whole expression: the `else` arm is the raw draw `u`. -/
def natureScale (df : ℚ) (e : String) (u : ℚ) : ℚ :=
  if e = "Right" then (1 - df) + df * (2 - u) else u

/-!
## Further trace predicates
-/

/-- `true` iff the event is a retina `GeneratorSheet` registration. -/
def isRetinaSheet : Event → Bool
  | .sheet _ (.generator _ _) _ => true
  | _ => false

/-- `true` iff the event registers an LGN sheet. -/
def isLGNSheet : Event → Bool
  | .sheet _ .lgnGC _ => true
  | .sheet _ .lgnPlain _ => true
  | _ => false

/-- `true` iff the event registers the cortical V1 sheet. -/
def isV1Sheet : Event → Bool
  | .sheet _ .cortical _ => true
  | _ => false

/-- `true` iff the event is a connect call issued by the given call
site of gcal_od.ty. -/
def isConnFrom (c : ConnSite) : Event → Bool
  | .connect c2 _ _ _ _ _ => decide (c = c2)
  | _ => false

/-- `true` iff the event is an assignment to a framework class or
object attribute (projection defaults, `topo.sim.name`,
`V1.joint_norm_fn`, analysis defaults). -/
def isConfigAssignEvent : Event → Bool
  | .config _ => true
  | .configVal _ _ => true
  | .configVals _ _ => true
  | .configFlag _ _ => true
  | .simName _ => true
  | .analysisPlotgroups _ => true
  | _ => false

/-- `true` iff the event is one of the statement kinds gcal_od.ty
actually issues: a sheet registration, a connect call, `grid_layout`,
or a configuration assignment — not a `run` call and not a parameter
check. -/
def isGcalStmtEvent : Event → Bool
  | .sheet _ _ _ => true
  | .connect _ _ _ _ _ _ => true
  | .gridLayout => true
  | .config _ => true
  | .configVal _ _ => true
  | .configVals _ _ => true
  | .configFlag _ _ => true
  | .simName _ => true
  | .analysisPlotgroups _ => true
  | .run _ => false
  | .paramCheck _ => false

/-- `true` iff the event checks, rejects or clamps a parameter value. -/
def isParamCheckEvent : Event → Bool
  | .paramCheck _ => true
  | _ => false

/-- `true` iff the command checks, rejects or clamps a parameter
value. -/
def isParamCheckCmd : Cmd → Bool
  | .paramCheck _ => true
  | _ => false

/-- `true` unless the event is a connect call with `delay ≠ 0.05`. -/
def connDelayOK : Event → Bool
  | .connect _ _ _ _ d _ => decide (d = (1/20 : ℚ))
  | _ => true

/-- `true` unless the event registers a `GeneratorSheet` whose period is
not `1.0` or whose phase is not `0.05`. -/
def genSheetTimingOK : Event → Bool
  | .sheet _ (.generator per ph) _ => decide (per = 1 ∧ ph = (1/20 : ℚ))
  | _ => true

/-- `true` unless the command is a notebook connect with `delay ≠ 0.05`. -/
def cmdDelayOK : Cmd → Bool
  | .connect _ _ d => decide (d = (1/20 : ℚ))
  | _ => true

/-- `defaultParams` with `dims=['or']`: a one-eye parameter setting. -/
def paramsOrOnly : Params := { defaultParams with dims := ["or"] }

/-- `defaultParams` with `dims=['od','dy']` and different densities and
strengths: same eyes and gain control as the default, all other numeric
parameters changed. -/
def paramsVariant : Params :=
  { defaultParams with
    dims := ["od", "dy"]
    area := 2
    retina_density := 12
    lgn_density := 10
    cortex_density := 20
    aff_strength := 2
    exc_strength := 3
    inh_strength := 5
    num_inputs := 7 }

/-!
## Claims
-/

/-- C3: in the Gaussian branch with two eyes, the shared draw `u ∈ [0,2]`
gives the left eye scale `(1-dim_fraction)+dim_fraction*u` and the right
eye scale `(1-dim_fraction)+dim_fraction*(2-u)`; the two scales sum
exactly to `2` and each lies in `[1-dim_fraction, 1+dim_fraction]`. -/
theorem gaussianScale_sum_two_and_bounded (df u : ℚ)
    (hdf : 0 ≤ df) (hu0 : 0 ≤ u) (hu2 : u ≤ 2) :
    gaussianScale df "Left" u = (1 - df) + df * u ∧
    gaussianScale df "Right" u = (1 - df) + df * (2 - u) ∧
    gaussianScale df "Left" u + gaussianScale df "Right" u = 2 ∧
    (1 - df ≤ gaussianScale df "Left" u ∧
      gaussianScale df "Left" u ≤ 1 + df) ∧
    (1 - df ≤ gaussianScale df "Right" u ∧
      gaussianScale df "Right" u ≤ 1 + df) := by
  have hL : gaussianScale df "Left" u = (1 - df) + df * u := by
    simp [gaussianScale]
  have hR : gaussianScale df "Right" u = (1 - df) + df * (2 - u) := by
    simp [gaussianScale]
  refine ⟨hL, hR, ?_, ⟨?_, ?_⟩, ⟨?_, ?_⟩⟩ <;> simp only [hL, hR] <;> nlinarith

/-- Witness for C3 at `dim_fraction = 7/10`, `u = 1/2`. -/
theorem gaussianScale_sum_two_and_bounded_witness :
    gaussianScale (7/10) "Left" (1/2) = (1 - 7/10) + (7/10) * (1/2) ∧
    gaussianScale (7/10) "Right" (1/2) = (1 - 7/10) + (7/10) * (2 - 1/2) ∧
    gaussianScale (7/10) "Left" (1/2) + gaussianScale (7/10) "Right" (1/2) = 2 ∧
    (1 - 7/10 ≤ gaussianScale (7/10) "Left" (1/2) ∧
      gaussianScale (7/10) "Left" (1/2) ≤ 1 + 7/10) ∧
    (1 - 7/10 ≤ gaussianScale (7/10) "Right" (1/2) ∧
      gaussianScale (7/10) "Right" (1/2) ≤ 1 + 7/10) :=
  gaussianScale_sum_two_and_bounded (7/10) (1/2)
    (by norm_num) (by norm_num) (by norm_num)

/-- C4: in the Nature branch the unparenthesised conditional binds the
whole expression, so only the right eye is attenuated: the right-eye
scale is `(1-dim_fraction)+dim_fraction*(2-u)` while the left-eye scale
is the raw draw `u` itself; the scales sum to `2` for every draw iff
`dim_fraction = 1`. -/
theorem natureScale_attenuates_right_only (df u : ℚ) :
    natureScale df "Left" u = u ∧
    natureScale df "Right" u = (1 - df) + df * (2 - u) ∧
    ((∀ v : ℚ, natureScale df "Left" v + natureScale df "Right" v = 2) ↔
      df = 1) := by
  refine ⟨by simp [natureScale], by simp [natureScale], ?_, ?_⟩
  · intro h
    have h0 := h 0
    simp [natureScale] at h0
    linarith
  · intro h v
    subst h
    simp [natureScale]

/-- C8: every numeric parameter (`param.Number`/`param.Integer`)
registered via `p.add` in gcal_od.ty and in the notebook declares
bounds (the non-numeric `ObjectSelector`, `List` and `Boolean`
declarations are the only ones without a `bounds` keyword), and no
statement of either artifact checks, rejects or clamps a parameter
value: for every parameter setting the gcal_od.ty trace contains no
parameter-check statement, and neither does the notebook. -/
theorem paramDecls_bounded_and_no_script_validation (p : Params) :
    (gcalParamDecls ++ somParamDecls).all
      (fun d => !d.kind.isNumeric || d.bounds.isSome) = true ∧
    (gcalTrace p).all (fun ev => !isParamCheckEvent ev) = true ∧
    somCmds.all (fun c => !isParamCheckCmd c) = true := by
  refine ⟨by decide, ?_, by decide⟩
  by_cases hod : "od" ∈ p.dims ∨ "dy" ∈ p.dims
  · have heyes : eyes p = ["Left", "Right"] := by simp [eyes, hod]
    cases hgc : p.gain_control <;>
      simp only [gcalTrace, gcalPreEvents, gcalSheetEvents,
        gcalConnectEvents, gcalAnalysisEvents, heyes, hgc] <;>
      rfl
  · have heyes : eyes p = [""] := by simp [eyes, hod]
    cases hgc : p.gain_control <;>
      simp only [gcalTrace, gcalPreEvents, gcalSheetEvents,
        gcalConnectEvents, gcalAnalysisEvents, heyes, hgc] <;>
      rfl

/-- C10: `pgs` contains the preference maps of the included dimensions in
the fixed order Ocular (iff `'od' ∈ dims`), Orientation (iff `'or'`),
PhaseDisparity (iff `'dy'`), always followed by Position Preference and
Activity as the last two entries. -/
theorem pgs_fixed_order (dims : List String) :
    pgs dims =
      (if "od" ∈ dims then ["Ocular Preference"] else []) ++
      (if "or" ∈ dims then ["Orientation Preference"] else []) ++
      (if "dy" ∈ dims then ["PhaseDisparity Preference"] else []) ++
      ["Position Preference", "Activity"] := by
  by_cases h1 : "od" ∈ dims <;> by_cases h2 : "or" ∈ dims <;>
    by_cases h3 : "dy" ∈ dims <;>
    simp [pgs, preference_maps, List.filter, h1, h2, h3]

/-- C5: for every parameter setting, every `topo.sim.connect` call of
gcal_od.ty names a source and a destination sheet that an earlier
statement registered in `topo.sim`. -/
theorem gcal_connects_only_registered_sheets (p : Params) :
    connectsRegistered [] (gcalTrace p) = true := by
  by_cases hod : "od" ∈ p.dims ∨ "dy" ∈ p.dims
  · have heyes : eyes p = ["Left", "Right"] := by simp [eyes, hod]
    cases hgc : p.gain_control <;>
      simp only [gcalTrace, gcalSheetEvents, gcalConnectEvents, heyes, hgc] <;>
      rfl
  · have heyes : eyes p = [""] := by simp [eyes, hod]
    cases hgc : p.gain_control <;>
      simp only [gcalTrace, gcalSheetEvents, gcalConnectEvents, heyes, hgc] <;>
      rfl

/-- C1 counterexample: at the explicit parameter settings `defaultParams`
(`dims=['or','od']`) and `paramsOrOnly` (`dims=['or']`, all else equal)
the script registers different sheet sets — `LeftRetina` exists only in
the first — and creates different connection sets, so the configuration
is not identical across any two parameter settings. -/
theorem gcal_trace_differs_across_params :
    (sheetNamesOf (gcalTrace defaultParams)).contains "LeftRetina" = true ∧
    (sheetNamesOf (gcalTrace paramsOrOnly)).contains "LeftRetina" = false ∧
    sheetNamesOf (gcalTrace defaultParams) ≠
      sheetNamesOf (gcalTrace paramsOrOnly) ∧
    connTriplesOf (gcalTrace defaultParams) ≠
      connTriplesOf (gcalTrace paramsOrOnly) := by decide

/-- C1 (amended): the registered sheet names and created connections of
gcal_od.ty are identical across any two parameter settings that agree on
whether `'od'` or `'dy'` is in `dims` and on `gain_control`; no other
parameter (dataset, num_inputs, area, densities, strengths, learning
rates) influences them. -/
theorem gcal_trace_structure_depends_only_on_dims_gc (p q : Params)
    (hdims : ("od" ∈ p.dims ∨ "dy" ∈ p.dims) ↔
      ("od" ∈ q.dims ∨ "dy" ∈ q.dims))
    (hgc : p.gain_control = q.gain_control) :
    sheetNamesOf (gcalTrace p) = sheetNamesOf (gcalTrace q) ∧
    connTriplesOf (gcalTrace p) = connTriplesOf (gcalTrace q) := by
  by_cases hod : "od" ∈ p.dims ∨ "dy" ∈ p.dims
  · have hodq := hdims.mp hod
    have hep : eyes p = ["Left", "Right"] := by simp [eyes, hod]
    have heq : eyes q = ["Left", "Right"] := by simp [eyes, hodq]
    cases hgcq : q.gain_control <;> rw [hgcq] at hgc <;>
      simp only [gcalTrace, gcalSheetEvents, gcalConnectEvents,
        hep, heq, hgc, hgcq] <;>
      exact ⟨rfl, rfl⟩
  · have hodq : ¬("od" ∈ q.dims ∨ "dy" ∈ q.dims) := fun h => hod (hdims.mpr h)
    have hep : eyes p = [""] := by simp [eyes, hod]
    have heq : eyes q = [""] := by simp [eyes, hodq]
    cases hgcq : q.gain_control <;> rw [hgcq] at hgc <;>
      simp only [gcalTrace, gcalSheetEvents, gcalConnectEvents,
        hep, heq, hgc, hgcq] <;>
      exact ⟨rfl, rfl⟩

/-- Witness for amended C1: `defaultParams` and `paramsVariant` differ in
dataset-independent numeric parameters and in the exact `dims` list, yet
agree on the eye condition and gain control, so their sheet names and
connection triples coincide. -/
theorem gcal_trace_structure_depends_only_on_dims_gc_witness :
    sheetNamesOf (gcalTrace defaultParams) =
      sheetNamesOf (gcalTrace paramsVariant) ∧
    connTriplesOf (gcalTrace defaultParams) =
      connTriplesOf (gcalTrace paramsVariant) :=
  gcal_trace_structure_depends_only_on_dims_gc defaultParams paramsVariant
    (by decide) (by decide)

/-- C2 counterexample: gcal_od.ty issues no `run(n)` at all — at the
default parameters its trace contains no run event — so "for each
artifact there exists at least one invocation of run(n)" fails. -/
theorem gcal_issues_no_run_at_defaults :
    (gcalTrace defaultParams).any isRunEvent = false := by decide

/-- C2 (amended): the notebook first defines parameters, sheets and
wiring and then invokes the simulation loop — it contains `run(n)`
invocations, and every one occurs after all its sheet creations and
connect calls; gcal_od.ty, by contrast, invokes `run(n)` nowhere, for
any parameter setting. -/
theorem runs_follow_model_definition (p : Params) :
    somCmds.any isRunCmd = true ∧
    runsAfterStructure somCmds = true ∧
    (gcalTrace p).all (fun ev => !isRunEvent ev) = true := by
  refine ⟨by decide, by decide, ?_⟩
  by_cases hod : "od" ∈ p.dims ∨ "dy" ∈ p.dims
  · have heyes : eyes p = ["Left", "Right"] := by simp [eyes, hod]
    cases hgc : p.gain_control <;>
      simp only [gcalTrace, gcalSheetEvents, gcalConnectEvents, heyes, hgc] <;>
      rfl
  · have heyes : eyes p = [""] := by simp [eyes, hod]
    cases hgc : p.gain_control <;>
      simp only [gcalTrace, gcalSheetEvents, gcalConnectEvents, heyes, hgc] <;>
      rfl

/-- C6: for every parameter setting gcal_od.ty creates exactly one V1
sheet, `len(eyes)` retinas, `2*len(eyes)` LGN sheets, `2*len(eyes)`
Retina→LGN afferents, `num_aff = 2*len(eyes)` LGN→V1 afferents, one
lateral excitatory and one lateral inhibitory V1 projection, and
`2*len(eyes)^2` LateralGC connections when gain control is on (none
otherwise). -/
theorem gcal_sheet_and_connection_counts (p : Params) :
    (gcalTrace p).countP isV1Sheet = 1 ∧
    (gcalTrace p).countP isRetinaSheet = (eyes p).length ∧
    (gcalTrace p).countP isLGNSheet = 2 * (eyes p).length ∧
    (gcalTrace p).countP (isConnFrom .retinaAfferent) = 2 * (eyes p).length ∧
    (gcalTrace p).countP (isConnFrom .lgnAfferent) = num_aff p ∧
    num_aff p = 2 * (eyes p).length ∧
    (gcalTrace p).countP (isConnFrom .lateralExcitatory) = 1 ∧
    (gcalTrace p).countP (isConnFrom .lateralInhibitory) = 1 ∧
    (gcalTrace p).countP (isConnFrom .lateralGC) =
      (if p.gain_control then 2 * (eyes p).length ^ 2 else 0) := by
  by_cases hod : "od" ∈ p.dims ∨ "dy" ∈ p.dims
  · have heyes : eyes p = ["Left", "Right"] := by simp [eyes, hod]
    cases hgc : p.gain_control <;>
      simp only [gcalTrace, gcalSheetEvents, gcalConnectEvents, num_aff,
        center_polarities, heyes, hgc] <;>
      exact ⟨rfl, rfl, rfl, rfl, rfl, rfl, rfl, rfl, rfl⟩
  · have heyes : eyes p = [""] := by simp [eyes, hod]
    cases hgc : p.gain_control <;>
      simp only [gcalTrace, gcalSheetEvents, gcalConnectEvents, num_aff,
        center_polarities, heyes, hgc] <;>
      exact ⟨rfl, rfl, rfl, rfl, rfl, rfl, rfl, rfl, rfl⟩

/-- C7 counterexample: the notebook invokes
`topo.sim.V1.Afferent.projection_view()`, a framework-level command that
is none of `run`, `connect`, `measure_cog`, `grid_layout`, nor a
string-keyed registration, so the spec's command list is not
exhaustive. -/
theorem notebook_issues_unlisted_command :
    Cmd.projectionView ∈ somCmds ∧
    isSpecListedCmd Cmd.projectionView = false ∧
    somCmds.all isSpecListedCmd = false := by decide

/-- C7 (amended): besides the spec-listed commands (`run`, `connect`,
`measure_cog`, `grid_layout`, string-keyed sheet registration), both
artifacts issue configuration assignments to framework class and
object attributes — in gcal_od.ty the projection class defaults,
`topo.sim.name`, `V1.joint_norm_fn` and the analysis defaults; in the
notebook the parameter and class-attribute assignments — and the
notebook additionally issues analysis/plotting commands
(`Afferent.grid`, `projection_view`, `anim`, Collector `collect` and
measurement calls, `topo.sim.time` and `kernel_radius` queries).
Every command of both artifacts falls in this enumeration; gcal_od.ty
in particular issues sheet registrations, connect calls, `grid_layout`
and configuration assignments (it does issue such assignments), and no
`run` or `measure_cog`. -/
theorem framework_commands_enumeration (p : Params) :
    somCmds.all (fun c => isSpecListedCmd c || isAnalysisOrConfigCmd c)
      = true ∧
    (gcalTrace p).all isGcalStmtEvent = true ∧
    (gcalTrace p).any isConfigAssignEvent = true := by
  refine ⟨by decide, ?_, rfl⟩
  by_cases hod : "od" ∈ p.dims ∨ "dy" ∈ p.dims
  · have heyes : eyes p = ["Left", "Right"] := by simp [eyes, hod]
    cases hgc : p.gain_control <;>
      simp only [gcalTrace, gcalPreEvents, gcalSheetEvents,
        gcalConnectEvents, gcalAnalysisEvents, heyes, hgc] <;>
      rfl
  · have heyes : eyes p = [""] := by simp [eyes, hod]
    cases hgc : p.gain_control <;>
      simp only [gcalTrace, gcalPreEvents, gcalSheetEvents,
        gcalConnectEvents, gcalAnalysisEvents, heyes, hgc] <;>
      rfl

/-- C9: all timing is expressed as parameter values handed to framework
calls: every connect call of gcal_od.ty (for every parameter setting)
and of the notebook passes `delay=0.05`, every `GeneratorSheet` of
gcal_od.ty has `period=1.0, phase=0.05`, and the notebook sets the
`GeneratorSheet` class defaults `period=1.0` and `phase=0.05` before
creating its Retina. -/
theorem timing_only_as_parameter_values (p : Params) :
    (gcalTrace p).all connDelayOK = true ∧
    (gcalTrace p).all genSheetTimingOK = true ∧
    somCmds.all cmdDelayOK = true ∧
    Cmd.classDefault "GeneratorSheet.period" 1 ∈ somCmds ∧
    Cmd.classDefault "GeneratorSheet.phase" (1/20) ∈ somCmds := by
  have hg : (gcalTrace p).all connDelayOK = true ∧
      (gcalTrace p).all genSheetTimingOK = true := by
    by_cases hod : "od" ∈ p.dims ∨ "dy" ∈ p.dims
    · have heyes : eyes p = ["Left", "Right"] := by simp [eyes, hod]
      cases hgc : p.gain_control <;>
        constructor <;>
        simp [gcalTrace, gcalPreEvents, gcalSheetEvents, gcalConnectEvents,
          gcalAnalysisEvents, heyes, hgc, center_polarities,
          connDelayOK, genSheetTimingOK]
    · have heyes : eyes p = [""] := by simp [eyes, hod]
      cases hgc : p.gain_control <;>
        constructor <;>
        simp [gcalTrace, gcalPreEvents, gcalSheetEvents, gcalConnectEvents,
          gcalAnalysisEvents, heyes, hgc, center_polarities,
          connDelayOK, genSheetTimingOK]
  refine ⟨hg.1, hg.2, ?_, ?_, ?_⟩ <;> simp [somCmds, cmdDelayOK]
